import Mathlib

/-!
Verification of the scenario-transformation and batch-orchestration pipeline
of `runme.py` (urbs experiment driver), as a shallow embedding.

Data model: a pandas DataFrame is modelled as a list of cells, each cell a
triple of a composite row key (the MultiIndex tuple, as a list of strings),
a column label, and a numeric value.  Numeric values are exact rationals
extended with positive infinity, matching the float values the script
assigns (0, 500, 183000000, 1.5, 1.2, inf); no claim here depends on
floating-point rounding.  The dataset dict returned by urbs.read_excel is a
structure with one DataFrame per table name.
-/

/-- Numeric cell value: a finite rational or positive infinity
(float(\x22inf\x22) in the source). -/
inductive Val where
  | fin (q : ℚ)
  | inf
deriving DecidableEq, Repr

/-- Multiplication of a cell value by a positive rational constant, as in
the in-place `*=` updates of the source (inf stays inf). -/
def valMul (r : ℚ) : Val → Val
  | Val.fin q => Val.fin (q * r)
  | Val.inf => Val.inf

/-- Composite row key: the tuple of index-level values of a DataFrame row. -/
abbrev RKey := List String

/-- A DataFrame: a list of cells (row key, column label, value). -/
structure DF where
  cells : List (RKey × String × Val)
deriving DecidableEq, Repr

/-- Look up the value at row key `k`, column `c`. -/
def dfGet (df : DF) (k : RKey) (c : String) : Option Val :=
  (df.cells.find? fun x => x.1 == k && x.2.1 == c).map fun x => x.2.2

/-- Selector-guided assignment `df.loc[mask, col] = v`: every cell in
column `col` of a row whose key satisfies `mask` receives value `v`. -/
def dfSetCol (df : DF) (mask : RKey → Bool) (col : String) (v : Val) : DF :=
  DF.mk (df.cells.map fun x =>
    if mask x.1 && x.2.1 == col then (x.1, x.2.1, v) else x)

/-- Selector-guided multiplicative update `df.loc[mask, col] *= r`. -/
def dfMulCol (df : DF) (mask : RKey → Bool) (col : String) (r : ℚ) : DF :=
  DF.mk (df.cells.map fun x =>
    if mask x.1 && x.2.1 == col then (x.1, x.2.1, valMul r x.2.2) else x)

/-- Label assignment `df.loc[k, col] = v`: update the cell when present,
create it otherwise (pandas .loc setting supports enlargement). -/
def dfLocSet (df : DF) (k : RKey) (col : String) (v : Val) : DF :=
  if df.cells.any fun x => x.1 == k && x.2.1 == col then
    DF.mk (df.cells.map fun x =>
      if x.1 == k && x.2.1 == col then (x.1, x.2.1, v) else x)
  else
    DF.mk (df.cells ++ [(k, col, v)])

/-- Model of `df.drop(label, axis=0, errors=ignore)`: remove every row whose
first index level equals the label; absence is a no-op. -/
def dfDropRow (df : DF) (label : String) : DF :=
  DF.mk (df.cells.filter fun x => !(x.1.headD "" == label))

/-- Model of `df.drop(label, axis=1, errors=ignore)`: remove every cell in
the column with that label; absence is a no-op. -/
def dfDropCol (df : DF) (label : String) : DF :=
  DF.mk (df.cells.filter fun x => !(x.2.1 == label))

/-- The key structure of a table: its (row key, column label) pairs. -/
def cellKeys (df : DF) : List (RKey × String) :=
  df.cells.map fun x => (x.1, x.2.1)

/-- The dataset dict produced by urbs.read_excel: one table per fixed name
(process, transmission, storage, global properties, demand time series and
the remaining input sheets). -/
structure Dataset where
  global_prop : DF
  site : DF
  commodity : DF
  process : DF
  process_commodity : DF
  transmission : DF
  storage : DF
  demand : DF
  supim : DF
deriving DecidableEq, Repr

/-- The source-stripping loop of run_scenario (lines 148-150): for every
table of the dict, drop the Source row and the Source column, ignoring
absence. -/
def dropSourceTable (df : DF) : DF :=
  dfDropCol (dfDropRow df "Source") "Source"

/-- Apply the source strip to every table of the dataset. -/
def dropSourceAll (d : Dataset) : Dataset where
  global_prop := dropSourceTable d.global_prop
  site := dropSourceTable d.site
  commodity := dropSourceTable d.commodity
  process := dropSourceTable d.process
  process_commodity := dropSourceTable d.process_commodity
  transmission := dropSourceTable d.transmission
  storage := dropSourceTable d.storage
  demand := dropSourceTable d.demand
  supim := dropSourceTable d.supim

/-- Mask for `index.get_level_values(level) == name`, with the level given
by its position in the composite key. -/
def levelIs (i : Nat) (name : String) (k : RKey) : Bool :=
  k.getD i "" == name

/-- Process-table selector: level Process is position 1 of the (Site,
Process) key. -/
def procIs (name : String) : RKey → Bool := levelIs 1 name

/-- Transmission-table selector: level Transmission is position 2 of the
(Site In, Site Out, Transmission, Commodity) key. -/
def traIs (name : String) : RKey → Bool := levelIs 2 name

/-- Scenario doing nothing (lines 11-13). -/
def scenario_base (data : Dataset) : Dataset :=
  data

/-- Scenario shutting down nuclear and slack plants and allowing renewable,
cc, bio and transmission expansion (lines 16-48), edit for edit in source
order. -/
def scenario_nuclear_free (data : Dataset) : Dataset :=
  let pro := data.process
  let nuclear_plants := procIs "Nuclear plant"
  let pro := dfSetCol pro nuclear_plants "inst-cap" (Val.fin 0)
  let pro := dfSetCol pro nuclear_plants "cap-lo" (Val.fin 0)
  let pro := dfSetCol pro nuclear_plants "cap-up" (Val.fin 0)
  let renewables := fun k => procIs "Wind plant" k || procIs "Solar plant" k
  let pro := dfSetCol pro renewables "cap-up" Val.inf
  let cc_plants := procIs "CC plant"
  let pro := dfMulCol pro cc_plants "cap-up" (3 / 2)
  let slack := procIs "Slack powerplant"
  let pro := dfSetCol pro slack "inst-cap" (Val.fin 0)
  let pro := dfSetCol pro slack "cap-lo" (Val.fin 0)
  let pro := dfSetCol pro slack "cap-up" (Val.fin 0)
  let bio_plants := procIs "Biomass plant"
  let pro := dfMulCol pro bio_plants "cap-up" (6 / 5)
  let tra := data.transmission
  let lines := traIs "hvac"
  let tra := dfSetCol tra lines "cap-up" Val.inf
  { data with process := pro, transmission := tra }

/-- Scenario changing the global CO2 limit and applying the same plant
edits (lines 50-87), edit for edit in source order. -/
def scenario_co2_2030 (data : Dataset) : Dataset :=
  let global_prop := data.global_prop
  let global_prop := dfLocSet global_prop ["CO2 limit"] "value" (Val.fin 183000000)
  let pro := data.process
  let nuclear_plants := procIs "Nuclear plant"
  let pro := dfSetCol pro nuclear_plants "inst-cap" (Val.fin 0)
  let pro := dfSetCol pro nuclear_plants "cap-lo" (Val.fin 0)
  let pro := dfSetCol pro nuclear_plants "cap-up" (Val.fin 0)
  let cc_plants := procIs "CC plant"
  let pro := dfMulCol pro cc_plants "cap-up" (3 / 2)
  let slack := procIs "Slack powerplant"
  let pro := dfSetCol pro slack "inst-cap" (Val.fin 0)
  let pro := dfSetCol pro slack "cap-lo" (Val.fin 0)
  let pro := dfSetCol pro slack "cap-up" (Val.fin 0)
  let bio_plants := procIs "Biomass plant"
  let pro := dfMulCol pro bio_plants "cap-up" (6 / 5)
  let renewables := fun k => procIs "Wind plant" k || procIs "Solar plant" k
  let pro := dfSetCol pro renewables "cap-up" Val.inf
  let tra := data.transmission
  let lines := traIs "hvac"
  let tra := dfSetCol tra lines "cap-up" Val.inf
  { data with global_prop := global_prop, process := pro, transmission := tra }

/-- A scenario rule of the registry: its function name (scenario.__name__)
and its transformation. -/
structure ScenarioRule where
  name : String
  apply : Dataset → Dataset

/-- The ordered Scenario Registry of the main block (lines 295-299). -/
def scenarios : List ScenarioRule :=
  [ScenarioRule.mk "scenario_base" scenario_base,
   ScenarioRule.mk "scenario_nuclear_free" scenario_nuclear_free,
   ScenarioRule.mk "scenario_co2_2030" scenario_co2_2030]

/-- The file system as run_scenario sees it: the parsed content of the
input spreadsheet (never written by the pipeline) and the result files
written so far, as (name, dataset snapshot) pairs. -/
structure World where
  input_file : Dataset
  result_files : List (String × Dataset)
deriving DecidableEq

/-- Model of urbs.read_excel(input_file) (line 145): parse the input file
content; a deterministic function of the file on disk. -/
def read_excel (w : World) : Dataset :=
  w.input_file

/-- The intermediate datasets of one run_scenario pass (lines 143-153):
the loaded dict, the source-stripped dict, and the dict after the
scenario function was applied (the value handed to urbs.validate_input). -/
structure PassTrace where
  loaded : Dataset
  normalized : Dataset
  transformed : Dataset
deriving DecidableEq

/-- The data-preparation stages of run_scenario, in source order:
read_excel, then the Source-dropping loop, then the scenario call. -/
def run_scenario_stages (w : World) (rule : ScenarioRule) : PassTrace :=
  let data0 := read_excel w
  let data1 := dropSourceAll data0
  let data2 := rule.apply data1
  PassTrace.mk data0 data1 data2

/-- One run_scenario call as a state transformer on the world: the input
file is only read, and the pass result (model input data, as urbs.save
persists it) is appended under the scenario name. -/
def run_scenario_world (w : World) (rule : ScenarioRule) : World :=
  let t := run_scenario_stages w rule
  World.mk w.input_file (w.result_files ++ [(rule.name, t.transformed)])

/-- Errors a scenario pass can raise after the rule was applied:
urbs.validate_input raising a ValidationError, or the solve step failing. -/
inductive UrbsError where
  | validationError (msg : String)
  | solveError (msg : String)
deriving DecidableEq, Repr

/-- One run_scenario call with its fallible collaborators made explicit:
validation runs on the transformed data; on success the solve step runs.
An error escapes the call as a raised exception (run_scenario has no
handler). -/
def run_scenario_exc (validate : Dataset → Except UrbsError Unit)
    (solve : Dataset → Except UrbsError Nat) (w : World) (rule : ScenarioRule) :
    Except UrbsError Nat :=
  let t := run_scenario_stages w rule
  match validate t.transformed with
  | Except.error e => Except.error e
  | Except.ok _ => solve t.transformed

/-- The batch loop of the main block (lines 301-307): a plain for loop
over the registry with no try/except, so an exception raised inside one
run_scenario call propagates and terminates the loop; results of the
scenarios before the failure are the only ones produced. -/
def batchLoop (runOne : ScenarioRule → Except UrbsError Nat) :
    List ScenarioRule → Except UrbsError (List Nat)
  | [] => Except.ok []
  | s :: rest =>
    match runOne s with
    | Except.error e => Except.error e
    | Except.ok r =>
      match batchLoop runOne rest with
      | Except.error e => Except.error e
      | Except.ok rs => Except.ok (r :: rs)

/-- Wall-clock instant at minute granularity, the inputs of
datetime.now().strftime with format YmdTHM. -/
structure DateTimeM where
  year : Nat
  month : Nat
  day : Nat
  hour : Nat
  minute : Nat
deriving DecidableEq

/-- Zero-pad a number to two digits, as strftime does for month, day,
hour and minute fields. -/
def pad2 (n : Nat) : String :=
  if n < 10 then "0" ++ toString n else toString n

/-- Zero-pad a number to four digits, as strftime does for the year. -/
def pad4 (n : Nat) : String :=
  if n < 10 then "000" ++ toString n
  else if n < 100 then "00" ++ toString n
  else if n < 1000 then "0" ++ toString n
  else toString n

/-- Model of datetime.now().strftime with the YYYYMMDDTHHMM format used
in prepare_result_directory (line 93). -/
def strftimeMinute (t : DateTimeM) : String :=
  pad4 t.year ++ pad2 t.month ++ pad2 t.day ++ "T" ++ pad2 t.hour ++ pad2 t.minute

/-- Model of os.path.join on two components. -/
def path_join (a b : String) : String :=
  a ++ "/" ++ b

/-- Model of prepare_result_directory (lines 90-100) with the file system
as an explicit list of existing directories and the clock as an explicit
argument: build the timestamped name under result, create the directory
when absent, and return (new file system, path). -/
def prepare_result_directory (fs : List String) (now : DateTimeM)
    (result_name : String) : List String × String :=
  let nowStr := strftimeMinute now
  let result_dir := path_join "result" (result_name ++ "-" ++ nowStr)
  if result_dir ∈ fs then (fs, result_dir)
  else (fs ++ [result_dir], result_dir)

/-- A pyomo solver object as setup_solver uses it: its name and the
option strings set on it so far. -/
structure Solver where
  name : String
  options : List String
deriving DecidableEq

/-- Model of optim.set_options(opt). -/
def set_options (s : Solver) (opt : String) : Solver :=
  Solver.mk s.name (s.options ++ [opt])

/-- The diagnostic line printed for an unknown solver name (lines 118-119;
the source wraps the name in single quote characters, elided here). -/
def warnNoOptions (name : String) : String :=
  "Warning from setup_solver: no options set for solver " ++ name ++ "!"

/-- Model of setup_solver (lines 103-120): returns the solver together
with the list of warnings printed. gurobi and glpk get their log-file
option set; any other name leaves the solver unchanged and prints the
diagnostic warning instead of failing. -/
def setup_solver (optim : Solver) (logfile : String) : Solver × List String :=
  if optim.name == "gurobi" then (set_options optim ("logfile=" ++ logfile), [])
  else if optim.name == "glpk" then (set_options optim ("log=" ++ logfile), [])
  else (optim, [warnNoOptions optim.name])

/-- An empty table. -/
def emptyDF : DF :=
  DF.mk []

/-- A small process table with one nuclear, one wind, one cc and one bio
row, used as concrete test input. -/
def demoProcess : DF :=
  DF.mk
    [(["S", "Nuclear plant"], "inst-cap", Val.fin 500),
     (["S", "Nuclear plant"], "cap-lo", Val.fin 100),
     (["S", "Nuclear plant"], "cap-up", Val.fin 800),
     (["S", "Wind plant"], "cap-up", Val.fin 300),
     (["S", "CC plant"], "cap-up", Val.fin 1000),
     (["S", "Biomass plant"], "cap-up", Val.fin 100)]

/-- A small transmission table with one hvac line. -/
def demoTransmission : DF :=
  DF.mk [(["S", "T", "hvac", "Elec"], "cap-up", Val.fin 50)]

/-- A small global properties table. -/
def demoGlobalProp : DF :=
  DF.mk [(["CO2 limit"], "value", Val.fin 460000000)]

/-- A concrete baseline dataset used as test input. -/
def demoDataset : Dataset :=
  Dataset.mk demoGlobalProp emptyDF emptyDF demoProcess emptyDF
    demoTransmission emptyDF emptyDF emptyDF

/-- A process table naming none of the processes any scenario rule
targets. -/
def coalProcess : DF :=
  DF.mk [(["S", "Coal plant"], "cap-up", Val.fin 7)]

/-- A transmission table with no hvac line. -/
def hvdcTransmission : DF :=
  DF.mk [(["S", "T", "hvdc", "Elec"], "cap-up", Val.fin 3)]

/-- A dataset on which every selector of scenario_nuclear_free matches
zero rows. -/
def demoNoMatch : Dataset :=
  Dataset.mk demoGlobalProp emptyDF emptyDF coalProcess emptyDF
    hvdcTransmission emptyDF emptyDF emptyDF

/-- The process names targeted by selectors of the scenario rules. -/
def plantNames : List String :=
  ["Nuclear plant", "Wind plant", "Solar plant", "CC plant",
   "Slack powerplant", "Biomass plant"]

/-- A table is free of Source provenance entries: no row keyed Source at
its first index level and no Source column cell. -/
def dfSourceFree (df : DF) : Bool :=
  df.cells.all fun x => !(x.1.headD "" == "Source") && !(x.2.1 == "Source")

/-- Every table of the dataset is free of Source entries. -/
def datasetSourceFree (d : Dataset) : Bool :=
  dfSourceFree d.global_prop && dfSourceFree d.site && dfSourceFree d.commodity &&
    dfSourceFree d.process && dfSourceFree d.process_commodity &&
    dfSourceFree d.transmission && dfSourceFree d.storage &&
    dfSourceFree d.demand && dfSourceFree d.supim

/-- A scenario rule whose output dataset the demo validator rejects. -/
def flagRule : ScenarioRule :=
  ScenarioRule.mk "scenario_flag" fun d =>
    { d with global_prop := dfLocSet d.global_prop ["flag"] "value" (Val.fin 1) }

/-- A scenario rule leaving the dataset unchanged. -/
def okRule : ScenarioRule :=
  ScenarioRule.mk "scenario_ok" fun d => d

/-- A validator in the role of urbs.validate_input: it raises a
ValidationError exactly on datasets carrying the flag property. -/
def demoValidate (d : Dataset) : Except UrbsError Unit :=
  if (dfGet d.global_prop ["flag"] "value").isSome then
    Except.error (UrbsError.validationError "invalid input")
  else Except.ok Unit.unit

/-- A solve step that always succeeds. -/
def demoSolve (_ : Dataset) : Except UrbsError Nat :=
  Except.ok 1

/-- One run_scenario call against the demo baseline with the demo
collaborators. -/
def demoRunOne (r : ScenarioRule) : Except UrbsError Nat :=
  run_scenario_exc demoValidate demoSolve (World.mk demoDataset []) r

/-- Looking up a cell after a selector-guided assignment: the value is
replaced exactly when the row key satisfies the mask and the column is the
assigned one. -/
theorem dfGet_dfSetCol (df : DF) (mask : RKey → Bool) (col : String) (v : Val)
    (k : RKey) (c : String) :
    dfGet (dfSetCol df mask col v) k c =
      (dfGet df k c).map fun w => if mask k && (c == col) then v else w := by
  unfold dfGet dfSetCol
  rw [List.find?_map]
  have hcomp : ((fun x : RKey × String × Val => x.1 == k && x.2.1 == c) ∘
      (fun x : RKey × String × Val =>
        if mask x.1 && x.2.1 == col then (x.1, x.2.1, v) else x)) =
      fun x : RKey × String × Val => x.1 == k && x.2.1 == c := by
    funext x
    by_cases h : (mask x.1 && x.2.1 == col) = true <;>
      simp [Function.comp, h]
  rw [hcomp]
  cases hf : df.cells.find? (fun x => x.1 == k && x.2.1 == c) with
  | none => simp
  | some x =>
    have hx := List.find?_some hf
    have hx2 : x.1 = k ∧ x.2.1 = c := by simpa using hx
    have h1 : x.1 = k := hx2.1
    have h2 : x.2.1 = c := hx2.2
    by_cases hm : (mask x.1 && x.2.1 == col) = true
    · rw [h1, h2] at hm
      have hm2 : mask k = true ∧ c = col := by simpa using hm
      simp [h1, h2, hm, hm2]
    · rw [h1, h2] at hm
      have hm2 : ¬(mask k = true ∧ c = col) := by simpa using hm
      simp [h1, h2, hm, hm2]

/-- Looking up a cell after a selector-guided multiplicative update: the
value is multiplied exactly when the row key satisfies the mask and the
column is the updated one. -/
theorem dfGet_dfMulCol (df : DF) (mask : RKey → Bool) (col : String) (r : ℚ)
    (k : RKey) (c : String) :
    dfGet (dfMulCol df mask col r) k c =
      (dfGet df k c).map fun w => if mask k && (c == col) then valMul r w else w := by
  unfold dfGet dfMulCol
  rw [List.find?_map]
  have hcomp : ((fun x : RKey × String × Val => x.1 == k && x.2.1 == c) ∘
      (fun x : RKey × String × Val =>
        if mask x.1 && x.2.1 == col then (x.1, x.2.1, valMul r x.2.2) else x)) =
      fun x : RKey × String × Val => x.1 == k && x.2.1 == c := by
    funext x
    by_cases h : (mask x.1 && x.2.1 == col) = true <;>
      simp [Function.comp, h]
  rw [hcomp]
  cases hf : df.cells.find? (fun x => x.1 == k && x.2.1 == c) with
  | none => simp
  | some x =>
    have hx := List.find?_some hf
    have hx2 : x.1 = k ∧ x.2.1 = c := by simpa using hx
    have h1 : x.1 = k := hx2.1
    have h2 : x.2.1 = c := hx2.2
    by_cases hm : (mask x.1 && x.2.1 == col) = true
    · rw [h1, h2] at hm
      have hm2 : mask k = true ∧ c = col := by simpa using hm
      simp [h1, h2, hm, hm2]
    · rw [h1, h2] at hm
      have hm2 : ¬(mask k = true ∧ c = col) := by simpa using hm
      simp [h1, h2, hm, hm2]

/-- A selector-guided assignment through a mask matching no row of the
table is a no-op. -/
theorem dfSetCol_id (df : DF) (mask : RKey → Bool) (col : String) (v : Val)
    (h : ∀ x ∈ df.cells, mask x.1 = false) :
    dfSetCol df mask col v = df := by
  obtain ⟨l⟩ := df
  unfold dfSetCol
  congr 1
  have hc : l.map (fun x : RKey × String × Val =>
      if mask x.1 && x.2.1 == col then (x.1, x.2.1, v) else x) = l.map id :=
    List.map_congr_left fun x hx => by simp [h x hx]
  rw [hc, List.map_id]

/-- A selector-guided multiplicative update through a mask matching no
row of the table is a no-op. -/
theorem dfMulCol_id (df : DF) (mask : RKey → Bool) (col : String) (r : ℚ)
    (h : ∀ x ∈ df.cells, mask x.1 = false) :
    dfMulCol df mask col r = df := by
  obtain ⟨l⟩ := df
  unfold dfMulCol
  congr 1
  have hc : l.map (fun x : RKey × String × Val =>
      if mask x.1 && x.2.1 == col then (x.1, x.2.1, valMul r x.2.2) else x) = l.map id :=
    List.map_congr_left fun x hx => by simp [h x hx]
  rw [hc, List.map_id]

/-- Stripping the Source row and column from a table carrying no Source
entry is a no-op. -/
theorem dropSourceTable_id (df : DF) (h : dfSourceFree df = true) :
    dropSourceTable df = df := by
  obtain ⟨l⟩ := df
  unfold dfSourceFree at h
  rw [List.all_eq_true] at h
  unfold dropSourceTable dfDropRow dfDropCol
  congr 1
  have h1 : l.filter (fun x : RKey × String × Val => !(x.1.headD "" == "Source")) = l :=
    List.filter_eq_self.mpr fun x hx => by
      have := h x hx
      exact (Bool.and_eq_true_iff.mp this).1
  rw [h1]
  exact List.filter_eq_self.mpr fun x hx => by
    have := h x hx
    exact (Bool.and_eq_true_iff.mp this).2

/-- Stripping Source entries from a dataset carrying none is a no-op. -/
theorem dropSourceAll_id (d : Dataset) (h : datasetSourceFree d = true) :
    dropSourceAll d = d := by
  obtain ⟨t1, t2, t3, t4, t5, t6, t7, t8, t9⟩ := d
  unfold datasetSourceFree at h
  simp only [Bool.and_eq_true] at h
  obtain ⟨⟨⟨⟨⟨⟨⟨⟨h1, h2⟩, h3⟩, h4⟩, h5⟩, h6⟩, h7⟩, h8⟩, h9⟩ := h
  unfold dropSourceAll
  simp only
  rw [dropSourceTable_id _ h1, dropSourceTable_id _ h2, dropSourceTable_id _ h3,
    dropSourceTable_id _ h4, dropSourceTable_id _ h5, dropSourceTable_id _ h6,
    dropSourceTable_id _ h7, dropSourceTable_id _ h8, dropSourceTable_id _ h9]

/-- A selector-guided assignment never adds or removes cells: the key
structure of the table is unchanged. -/
theorem cellKeys_dfSetCol (df : DF) (mask : RKey → Bool) (col : String) (v : Val) :
    cellKeys (dfSetCol df mask col v) = cellKeys df := by
  unfold cellKeys dfSetCol
  simp only [List.map_map]
  exact List.map_congr_left fun x hx => by
    by_cases h : (mask x.1 && x.2.1 == col) = true <;> simp [Function.comp, h]

/-- A selector-guided multiplicative update never adds or removes cells. -/
theorem cellKeys_dfMulCol (df : DF) (mask : RKey → Bool) (col : String) (r : ℚ) :
    cellKeys (dfMulCol df mask col r) = cellKeys df := by
  unfold cellKeys dfMulCol
  simp only [List.map_map]
  exact List.map_congr_left fun x hx => by
    by_cases h : (mask x.1 && x.2.1 == col) = true <;> simp [Function.comp, h]

/-- A label assignment may create one cell but never removes any: the old
key structure embeds into the new one. -/
theorem cellKeys_sublist_dfLocSet (df : DF) (k : RKey) (col : String) (v : Val) :
    (cellKeys df).Sublist (cellKeys (dfLocSet df k col v)) := by
  unfold cellKeys dfLocSet
  by_cases h : (df.cells.any fun x => x.1 == k && x.2.1 == col) = true
  · rw [if_pos h]
    have : (df.cells.map fun x : RKey × String × Val =>
        if x.1 == k && x.2.1 == col then (x.1, x.2.1, v) else x).map
          (fun x : RKey × String × Val => (x.1, x.2.1)) =
        df.cells.map fun x : RKey × String × Val => (x.1, x.2.1) := by
      simp only [List.map_map]
      exact List.map_congr_left fun x hx => by
        by_cases hx2 : (x.1 == k && x.2.1 == col) = true <;> simp [Function.comp, hx2]
    rw [this]
  · rw [if_neg h]
    simp only [List.map_append]
    exact List.sublist_append_left _ _

/-- Claim C5: every scenario of a batch receives a freshly loaded copy of
the baseline: running scenario A over a world whose input file parses to
dataset D leaves the file untouched, so the dataset loaded for the next
scenario B equals D exactly and the whole pass of B is as if A had never
run. -/
theorem scenario_input_isolated (D : Dataset) (rs : List (String × Dataset))
    (A B : ScenarioRule) :
    read_excel (run_scenario_world (World.mk D rs) A) = D ∧
    (run_scenario_stages (run_scenario_world (World.mk D rs) A) B).loaded = D ∧
    run_scenario_stages (run_scenario_world (World.mk D rs) A) B =
      run_scenario_stages (World.mk D rs) B :=
  ⟨rfl, rfl, rfl⟩

/-- Claim C6: each scenario rule of the registry mutates only the tables
it references: scenario_base mutates nothing, scenario_nuclear_free only
process and transmission, scenario_co2_2030 only global_prop, process and
transmission; every other table of the dataset is returned unchanged. -/
theorem scenario_rules_frame (d : Dataset) :
    scenario_base d = d ∧
    ((scenario_nuclear_free d).global_prop = d.global_prop ∧
     (scenario_nuclear_free d).site = d.site ∧
     (scenario_nuclear_free d).commodity = d.commodity ∧
     (scenario_nuclear_free d).process_commodity = d.process_commodity ∧
     (scenario_nuclear_free d).storage = d.storage ∧
     (scenario_nuclear_free d).demand = d.demand ∧
     (scenario_nuclear_free d).supim = d.supim) ∧
    ((scenario_co2_2030 d).site = d.site ∧
     (scenario_co2_2030 d).commodity = d.commodity ∧
     (scenario_co2_2030 d).process_commodity = d.process_commodity ∧
     (scenario_co2_2030 d).storage = d.storage ∧
     (scenario_co2_2030 d).demand = d.demand ∧
     (scenario_co2_2030 d).supim = d.supim) :=
  ⟨rfl, ⟨rfl, rfl, rfl, rfl, rfl, rfl, rfl⟩, ⟨rfl, rfl, rfl, rfl, rfl, rfl⟩⟩

/-- Claim C7: each scenario rule of the registry is a deterministic
function of the dataset it receives, with no dependence on I/O or shared
state: applied to two equal independently built datasets it returns equal
results. -/
theorem scenario_rules_deterministic (d1 d2 : Dataset) (h : d1 = d2) :
    scenario_base d1 = scenario_base d2 ∧
    scenario_nuclear_free d1 = scenario_nuclear_free d2 ∧
    scenario_co2_2030 d1 = scenario_co2_2030 d2 := by
  subst h
  exact ⟨rfl, rfl, rfl⟩

/-- Witness for claim C7 at a concrete pair of equal datasets. -/
theorem scenario_rules_deterministic_witness :
    scenario_base demoDataset = scenario_base demoDataset ∧
    scenario_nuclear_free demoDataset = scenario_nuclear_free demoDataset ∧
    scenario_co2_2030 demoDataset = scenario_co2_2030 demoDataset :=
  scenario_rules_deterministic demoDataset demoDataset rfl

set_option maxRecDepth 8000 in
/-- Claim C10: scenario_nuclear_free is not idempotent: on the demo
dataset, whose CC plant row has cap-up 1000, one application multiplies
cap-up by 1.5 (to 1500) and a second application multiplies it again (to
2250 = 2.25 times the original), so applying the rule twice differs from
applying it once. -/
theorem scenario_nuclear_free_not_idempotent :
    scenario_nuclear_free (scenario_nuclear_free demoDataset) ≠
      scenario_nuclear_free demoDataset ∧
    dfGet demoDataset.process ["S", "CC plant"] "cap-up" = some (Val.fin 1000) ∧
    dfGet (scenario_nuclear_free demoDataset).process ["S", "CC plant"] "cap-up" =
      some (Val.fin 1500) ∧
    dfGet (scenario_nuclear_free (scenario_nuclear_free demoDataset)).process
      ["S", "CC plant"] "cap-up" = some (Val.fin 2250) := by
  have h2 : dfGet demoDataset.process ["S", "CC plant"] "cap-up" =
      some (Val.fin 1000) := rfl
  have h3 : dfGet (scenario_nuclear_free demoDataset).process ["S", "CC plant"] "cap-up"
      = some (Val.fin (1000 * (3 / 2))) := rfl
  have h4 : dfGet (scenario_nuclear_free (scenario_nuclear_free demoDataset)).process
      ["S", "CC plant"] "cap-up" = some (Val.fin (1000 * (3 / 2) * (3 / 2))) := rfl
  have e3 : (1000 : ℚ) * (3 / 2) = 1500 := by norm_num
  have e4 : (1000 : ℚ) * (3 / 2) * (3 / 2) = 2250 := by norm_num
  rw [e3] at h3
  rw [e4] at h4
  refine ⟨?_, h2, h3, h4⟩
  intro h
  have hc := congrArg (fun d : Dataset => dfGet d.process ["S", "CC plant"] "cap-up") h
  simp only at hc
  rw [h4, h3] at hc
  simp only [Option.some.injEq, Val.fin.injEq] at hc
  norm_num at hc

/-- Claim C8: prepare_result_directory returns the path result/<base
name>-<wall-clock timestamp at minute granularity> and creates that
directory when absent while keeping every existing entry; a second call
within the same minute with the same label returns the same path without
error and without changing the file system (creation is skipped). -/
theorem prepare_result_directory_spec (fs : List String) (now : DateTimeM)
    (name : String) :
    (prepare_result_directory fs now name).2 =
      path_join "result" (name ++ "-" ++ strftimeMinute now) ∧
    (prepare_result_directory fs now name).2 ∈ (prepare_result_directory fs now name).1 ∧
    (∀ q ∈ fs, q ∈ (prepare_result_directory fs now name).1) ∧
    prepare_result_directory (prepare_result_directory fs now name).1 now name =
      ((prepare_result_directory fs now name).1,
        (prepare_result_directory fs now name).2) := by
  unfold prepare_result_directory
  by_cases h : path_join "result" (name ++ "-" ++ strftimeMinute now) ∈ fs
  · simp [h]
  · simp [h]
    exact fun q hq => Or.inl hq

/-- Witness for claim C8 at a concrete file system, clock and label. -/
theorem prepare_result_directory_spec_witness :
    (prepare_result_directory ["result/old"] (DateTimeM.mk 2026 10 12 9 30) "germany").2 =
      path_join "result" ("germany" ++ "-" ++
        strftimeMinute (DateTimeM.mk 2026 10 12 9 30)) ∧
    (prepare_result_directory ["result/old"] (DateTimeM.mk 2026 10 12 9 30) "germany").2 ∈
      (prepare_result_directory ["result/old"] (DateTimeM.mk 2026 10 12 9 30) "germany").1 ∧
    (∀ q ∈ ["result/old"],
      q ∈ (prepare_result_directory ["result/old"]
        (DateTimeM.mk 2026 10 12 9 30) "germany").1) ∧
    prepare_result_directory
      (prepare_result_directory ["result/old"]
        (DateTimeM.mk 2026 10 12 9 30) "germany").1
      (DateTimeM.mk 2026 10 12 9 30) "germany" =
      ((prepare_result_directory ["result/old"]
          (DateTimeM.mk 2026 10 12 9 30) "germany").1,
        (prepare_result_directory ["result/old"]
          (DateTimeM.mk 2026 10 12 9 30) "germany").2) :=
  prepare_result_directory_spec ["result/old"] (DateTimeM.mk 2026 10 12 9 30) "germany"

/-- Claim C9: setup_solver never fails on an unknown solver name: for a
solver named neither gurobi nor glpk it returns the solver unchanged
together with the diagnostic warning, while for gurobi and glpk it
appends the log-file option pointing at the given logfile and prints no
warning. -/
theorem setup_solver_spec (optim : Solver) (logfile : String) :
    (optim.name ≠ "gurobi" → optim.name ≠ "glpk" →
      setup_solver optim logfile = (optim, [warnNoOptions optim.name])) ∧
    (∀ opts, setup_solver (Solver.mk "gurobi" opts) logfile =
      (Solver.mk "gurobi" (opts ++ ["logfile=" ++ logfile]), [])) ∧
    (∀ opts, setup_solver (Solver.mk "glpk" opts) logfile =
      (Solver.mk "glpk" (opts ++ ["log=" ++ logfile]), [])) := by
  refine ⟨fun h1 h2 => ?_, fun opts => rfl, fun opts => rfl⟩
  simp [setup_solver, h1, h2]

/-- Witness for claim C9 at a solver with an unknown name. -/
theorem setup_solver_spec_witness :
    setup_solver (Solver.mk "cplex" []) "run.log" =
      (Solver.mk "cplex" [], [warnNoOptions "cplex"]) :=
  (setup_solver_spec (Solver.mk "cplex" []) "run.log").1 (by decide) (by decide)

/-- On a two-level key the process selector just compares the Process
level. -/
theorem procIs_pair (n X name2 : String) : procIs n [X, name2] = (name2 == n) :=
  rfl

/-- Claim C4: a selector matching zero rows of the targeted table makes
the guided field assignment a no-op and the rule does not fail: both
assignment forms return the table unchanged, and scenario_nuclear_free
applied to a dataset in which none of its selectors matches any row
returns the dataset unchanged. -/
theorem zero_match_selector_noop (df : DF) (mask : RKey → Bool) (col : String)
    (v : Val) (r : ℚ) (d : Dataset)
    (hmask : ∀ x ∈ df.cells, mask x.1 = false)
    (hpro : ∀ x ∈ d.process.cells, ∀ n ∈ plantNames, procIs n x.1 = false)
    (htra : ∀ x ∈ d.transmission.cells, traIs "hvac" x.1 = false) :
    dfSetCol df mask col v = df ∧ dfMulCol df mask col r = df ∧
    scenario_nuclear_free d = d := by
  refine ⟨dfSetCol_id df mask col v hmask, dfMulCol_id df mask col r hmask, ?_⟩
  have hN : ∀ x ∈ d.process.cells, procIs "Nuclear plant" x.1 = false :=
    fun x hx => hpro x hx _ (by simp [plantNames])
  have hW : ∀ x ∈ d.process.cells, procIs "Wind plant" x.1 = false :=
    fun x hx => hpro x hx _ (by simp [plantNames])
  have hS : ∀ x ∈ d.process.cells, procIs "Solar plant" x.1 = false :=
    fun x hx => hpro x hx _ (by simp [plantNames])
  have hC : ∀ x ∈ d.process.cells, procIs "CC plant" x.1 = false :=
    fun x hx => hpro x hx _ (by simp [plantNames])
  have hSl : ∀ x ∈ d.process.cells, procIs "Slack powerplant" x.1 = false :=
    fun x hx => hpro x hx _ (by simp [plantNames])
  have hB : ∀ x ∈ d.process.cells, procIs "Biomass plant" x.1 = false :=
    fun x hx => hpro x hx _ (by simp [plantNames])
  have hRen : ∀ x ∈ d.process.cells,
      (procIs "Wind plant" x.1 || procIs "Solar plant" x.1) = false :=
    fun x hx => by rw [hW x hx, hS x hx]; rfl
  obtain ⟨g, si, co, p, pc, t, st, de, su⟩ := d
  dsimp only at hN hW hS hC hSl hB hRen htra
  dsimp only [scenario_nuclear_free]
  rw [dfSetCol_id p (procIs "Nuclear plant") "inst-cap" (Val.fin 0) hN,
    dfSetCol_id p (procIs "Nuclear plant") "cap-lo" (Val.fin 0) hN,
    dfSetCol_id p (procIs "Nuclear plant") "cap-up" (Val.fin 0) hN,
    dfSetCol_id p (fun k => procIs "Wind plant" k || procIs "Solar plant" k)
      "cap-up" Val.inf hRen,
    dfMulCol_id p (procIs "CC plant") "cap-up" (3 / 2) hC,
    dfSetCol_id p (procIs "Slack powerplant") "inst-cap" (Val.fin 0) hSl,
    dfSetCol_id p (procIs "Slack powerplant") "cap-lo" (Val.fin 0) hSl,
    dfSetCol_id p (procIs "Slack powerplant") "cap-up" (Val.fin 0) hSl,
    dfMulCol_id p (procIs "Biomass plant") "cap-up" (6 / 5) hB,
    dfSetCol_id t (traIs "hvac") "cap-up" Val.inf htra]

/-- Witness for claim C4: a dataset with only a coal process and an hvdc
line is returned unchanged, and both assignment forms through a
zero-match selector are no-ops. -/
theorem zero_match_selector_noop_witness :
    dfSetCol coalProcess (procIs "Nuclear plant") "cap-up" (Val.fin 0) = coalProcess ∧
    dfMulCol coalProcess (procIs "Nuclear plant") "cap-up" (3 / 2) = coalProcess ∧
    scenario_nuclear_free demoNoMatch = demoNoMatch :=
  zero_match_selector_noop coalProcess (procIs "Nuclear plant") "cap-up"
    (Val.fin 0) (3 / 2) demoNoMatch (by decide) (by decide) (by decide)

/-- Claim C2: on any dataset whose process table has a SiteX, Nuclear
plant row with inst-cap 500 (its cap-lo and cap-up fields present),
scenario_nuclear_free zeroes inst-cap, cap-lo and cap-up of that row, and
sets cap-up of any SiteX, Wind plant row to positive infinity regardless
of its prior value. -/
theorem nuclear_free_row_effects (d : Dataset) (X : String) (lo up w : Val)
    (hinst : dfGet d.process [X, "Nuclear plant"] "inst-cap" = some (Val.fin 500))
    (hlo : dfGet d.process [X, "Nuclear plant"] "cap-lo" = some lo)
    (hup : dfGet d.process [X, "Nuclear plant"] "cap-up" = some up)
    (hwind : dfGet d.process [X, "Wind plant"] "cap-up" = some w) :
    dfGet (scenario_nuclear_free d).process [X, "Nuclear plant"] "inst-cap" =
      some (Val.fin 0) ∧
    dfGet (scenario_nuclear_free d).process [X, "Nuclear plant"] "cap-lo" =
      some (Val.fin 0) ∧
    dfGet (scenario_nuclear_free d).process [X, "Nuclear plant"] "cap-up" =
      some (Val.fin 0) ∧
    dfGet (scenario_nuclear_free d).process [X, "Wind plant"] "cap-up" =
      some Val.inf := by
  dsimp only [scenario_nuclear_free]
  simp only [dfGet_dfSetCol, dfGet_dfMulCol, procIs_pair]
  rw [hinst, hlo, hup, hwind]
  simp

/-- Claim C3: Source stripping is owned by the orchestrator and
tolerates absence: in the run_scenario stage order the normalized dict is
the stripped load result and the scenario rule (whose output is what
validation receives) runs only after the strip; on a dataset with no
Source row or column anywhere the strip is a no-op and not an error; and
no scenario rule of the registry performs any stripping itself, since
every rule of the registry only rewrites or adds cells and never removes
one from any table. -/
theorem source_strip_owned_by_orchestrator (w : World) (rule : ScenarioRule)
    (d : Dataset) (hfree : datasetSourceFree d = true) :
    (run_scenario_stages w rule).normalized =
      dropSourceAll (run_scenario_stages w rule).loaded ∧
    (run_scenario_stages w rule).transformed =
      rule.apply (dropSourceAll (read_excel w)) ∧
    dropSourceAll d = d ∧
    (∀ rl ∈ scenarios, ∀ dd : Dataset,
      (cellKeys dd.global_prop).Sublist (cellKeys ((rl.apply dd).global_prop)) ∧
      (cellKeys dd.site).Sublist (cellKeys ((rl.apply dd).site)) ∧
      (cellKeys dd.commodity).Sublist (cellKeys ((rl.apply dd).commodity)) ∧
      (cellKeys dd.process).Sublist (cellKeys ((rl.apply dd).process)) ∧
      (cellKeys dd.process_commodity).Sublist
        (cellKeys ((rl.apply dd).process_commodity)) ∧
      (cellKeys dd.transmission).Sublist (cellKeys ((rl.apply dd).transmission)) ∧
      (cellKeys dd.storage).Sublist (cellKeys ((rl.apply dd).storage)) ∧
      (cellKeys dd.demand).Sublist (cellKeys ((rl.apply dd).demand)) ∧
      (cellKeys dd.supim).Sublist (cellKeys ((rl.apply dd).supim))) := by
  refine ⟨rfl, rfl, dropSourceAll_id d hfree, ?_⟩
  intro rl hrl dd
  simp only [scenarios, List.mem_cons, List.not_mem_nil, or_false] at hrl
  rcases hrl with rfl | rfl | rfl
  · exact ⟨List.Sublist.refl _, List.Sublist.refl _, List.Sublist.refl _,
      List.Sublist.refl _, List.Sublist.refl _, List.Sublist.refl _,
      List.Sublist.refl _, List.Sublist.refl _, List.Sublist.refl _⟩
  · dsimp only [scenario_nuclear_free]
    refine ⟨List.Sublist.refl _, List.Sublist.refl _, List.Sublist.refl _, ?_,
      List.Sublist.refl _, ?_, List.Sublist.refl _, List.Sublist.refl _,
      List.Sublist.refl _⟩
    · rw [cellKeys_dfMulCol, cellKeys_dfSetCol, cellKeys_dfSetCol, cellKeys_dfSetCol,
        cellKeys_dfMulCol, cellKeys_dfSetCol, cellKeys_dfSetCol, cellKeys_dfSetCol,
        cellKeys_dfSetCol]
    · rw [cellKeys_dfSetCol]
  · dsimp only [scenario_co2_2030]
    refine ⟨cellKeys_sublist_dfLocSet _ _ _ _, List.Sublist.refl _,
      List.Sublist.refl _, ?_, List.Sublist.refl _, ?_, List.Sublist.refl _,
      List.Sublist.refl _, List.Sublist.refl _⟩
    · rw [cellKeys_dfSetCol, cellKeys_dfMulCol, cellKeys_dfSetCol, cellKeys_dfSetCol,
        cellKeys_dfSetCol, cellKeys_dfMulCol, cellKeys_dfSetCol, cellKeys_dfSetCol,
        cellKeys_dfSetCol]
    · rw [cellKeys_dfSetCol]

/-- Witness for claim C3 at a concrete world, rule and Source-free
dataset. -/
theorem source_strip_owned_by_orchestrator_witness :
    (run_scenario_stages (World.mk demoDataset []) okRule).normalized =
      dropSourceAll (run_scenario_stages (World.mk demoDataset []) okRule).loaded ∧
    (run_scenario_stages (World.mk demoDataset []) okRule).transformed =
      okRule.apply (dropSourceAll (read_excel (World.mk demoDataset []))) ∧
    dropSourceAll demoDataset = demoDataset ∧
    (∀ rl ∈ scenarios, ∀ dd : Dataset,
      (cellKeys dd.global_prop).Sublist (cellKeys ((rl.apply dd).global_prop)) ∧
      (cellKeys dd.site).Sublist (cellKeys ((rl.apply dd).site)) ∧
      (cellKeys dd.commodity).Sublist (cellKeys ((rl.apply dd).commodity)) ∧
      (cellKeys dd.process).Sublist (cellKeys ((rl.apply dd).process)) ∧
      (cellKeys dd.process_commodity).Sublist
        (cellKeys ((rl.apply dd).process_commodity)) ∧
      (cellKeys dd.transmission).Sublist (cellKeys ((rl.apply dd).transmission)) ∧
      (cellKeys dd.storage).Sublist (cellKeys ((rl.apply dd).storage)) ∧
      (cellKeys dd.demand).Sublist (cellKeys ((rl.apply dd).demand)) ∧
      (cellKeys dd.supim).Sublist (cellKeys ((rl.apply dd).supim))) :=
  source_strip_owned_by_orchestrator (World.mk demoDataset []) okRule demoDataset
    (by decide)

set_option maxRecDepth 4000 in
/-- Counterexample to claim C1: a two-scenario batch in which the first
pass raises a ValidationError after its rule is applied while the second
pass on its own succeeds; the batch loop, which has no handler,
propagates the exception and terminates, so the second scenario is never
run and no failure is recorded anywhere, contradicting the claim that
the loop records the failure and runs every subsequent scenario to
completion. -/
theorem batch_continue_on_failure_counterexample :
    demoRunOne flagRule = Except.error (UrbsError.validationError "invalid input") ∧
    demoRunOne okRule = Except.ok 1 ∧
    batchLoop demoRunOne [flagRule, okRule] =
      Except.error (UrbsError.validationError "invalid input") :=
  ⟨rfl, rfl, rfl⟩

/-- Claim C1 amended: a failure inside one scenario pipeline pass aborts
the whole batch, not only that scenario: whenever any scenario of the
registry list fails, the loop terminates with an error and produces no
result list at all; scenarios after the failing one are not run. -/
theorem batch_aborts_on_first_failure (runOne : ScenarioRule → Except UrbsError Nat)
    (scs : List ScenarioRule) (s : ScenarioRule) (e : UrbsError)
    (hs : s ∈ scs) (hfail : runOne s = Except.error e) :
    ∃ err, batchLoop runOne scs = Except.error err := by
  induction scs with
  | nil => cases hs
  | cons a rest ih =>
    cases hra : runOne a with
    | error e2 => exact ⟨e2, by simp [batchLoop, hra]⟩
    | ok r =>
      have hmem : s ∈ rest := by
        cases hs with
        | head =>
          rw [hfail] at hra
          exact Except.noConfusion hra
        | tail _ h => exact h
      obtain ⟨err, herr⟩ := ih hmem
      exact ⟨err, by simp [batchLoop, hra, herr]⟩

set_option maxRecDepth 4000 in
/-- Witness for the amended claim C1 at the concrete two-scenario batch. -/
theorem batch_aborts_on_first_failure_witness :
    ∃ err, batchLoop demoRunOne [flagRule, okRule] = Except.error err :=
  batch_aborts_on_first_failure demoRunOne [flagRule, okRule] flagRule
    (UrbsError.validationError "invalid input") (List.Mem.head _) rfl

set_option maxRecDepth 4000 in
/-- Witness for claim C2 at the demo dataset, whose nuclear row has
inst-cap 500, cap-lo 100 and cap-up 800, and whose wind row has cap-up
300. -/
theorem nuclear_free_row_effects_witness :
    dfGet (scenario_nuclear_free demoDataset).process ["S", "Nuclear plant"]
      "inst-cap" = some (Val.fin 0) ∧
    dfGet (scenario_nuclear_free demoDataset).process ["S", "Nuclear plant"]
      "cap-lo" = some (Val.fin 0) ∧
    dfGet (scenario_nuclear_free demoDataset).process ["S", "Nuclear plant"]
      "cap-up" = some (Val.fin 0) ∧
    dfGet (scenario_nuclear_free demoDataset).process ["S", "Wind plant"]
      "cap-up" = some Val.inf :=
  nuclear_free_row_effects demoDataset "S" (Val.fin 100) (Val.fin 800)
    (Val.fin 300) rfl rfl rfl rfl
